import Mathlib

/-!
A shallow embedding of `src/lib/rsa.ts` of node-webcrypto-ossl: the RSA
family (RSASSA-PKCS1-v1_5, RSA-PSS, RSA-OAEP) of a WebCrypto provider.
The synchronous validation phase of every operation is modelled as an
`Except String` computation: an `.error` value means the operation's
completion callback is invoked with that error before the native engine
is contacted, while an `.ok` value carries exactly the arguments handed
to the engine (or, where the engine's reply matters, the model takes the
reply as an explicit parameter and returns the callback invocation).
The base64url codec is an external collaborator, so the models take the
encode/decode functions as parameters.
-/

/-- ASCII lower-casing of one character, the effect of JavaScript
`toLocaleLowerCase` on the ASCII strings this module handles. -/
def lowerChar (c : Char) : Char :=
  if 65 ≤ c.toNat ∧ c.toNat ≤ 90 then Char.ofNat (c.toNat + 32) else c

/-- ASCII upper-casing of one character (JavaScript `toUpperCase`). -/
def upperChar (c : Char) : Char :=
  if 97 ≤ c.toNat ∧ c.toNat ≤ 122 then Char.ofNat (c.toNat - 32) else c

/-- JavaScript `format.toLocaleLowerCase()` on ASCII strings. -/
def jsToLower (s : String) : String := ⟨s.data.map lowerChar⟩

/-- JavaScript `name.toUpperCase()` on ASCII strings. -/
def jsToUpper (s : String) : String := ⟨s.data.map upperChar⟩

/-- JavaScript `s.replace("-", "")`: removes the FIRST dash only. -/
def replaceFirstDash (s : String) : String :=
  ⟨dropFirstDash s.data⟩
where
  dropFirstDash : List Char → List Char
    | [] => []
    | c :: rest => if c = '-' then rest else c :: dropFirstDash rest

/-- One lower-case hex digit, as Node Buffer `toString("hex")` uses. -/
def hexDigitChar (n : Nat) : Char :=
  if n < 10 then Char.ofNat (48 + n) else Char.ofNat (87 + n)

/-- Hex encoding of one byte (two lower-case digits). -/
def byteToHex (b : Nat) : String :=
  ⟨[hexDigitChar (b % 256 / 16), hexDigitChar (b % 16)]⟩

/-- Node `Buffer.toString("hex")` over a byte list. -/
def bytesToHex (bs : List Nat) : String := String.join (bs.map byteToHex)

/-- The capture of the regular expression `(\d+)$`: the maximal non-empty
run of decimal digits at the end of the string, `none` when the match
fails (`exec` returns `null`). -/
def trailingDigits (s : String) : Option String :=
  let ds := (s.data.reverse.takeWhile Char.isDigit).reverse
  if ds.isEmpty then none else some ⟨ds⟩

def ALG_NAME_RSA_PKCS1 : String := "RSASSA-PKCS1-v1_5"

def ALG_NAME_RSA_PSS : String := "RSA-PSS"

def ALG_NAME_RSA_OAEP : String := "RSA-OAEP"

def HASH_ALGS : List String := ["SHA-1", "SHA-224", "SHA-256", "SHA-384", "SHA-512"]

/-- The algorithm descriptor object (`IRsaKeyGenParams` / the stored
`key.algorithm`): name, optional hash sub-descriptor (its name), optional
`modulusLength` and `publicExponent`.  `none` models a missing (JS
`undefined`) property; a byte sequence is a list of byte values. -/
structure AlgDesc where
  name : String
  hashName : Option String
  modulusLength : Option Int
  publicExponent : Option (List Nat)
deriving Repr, DecidableEq

/-- The parameters object handed to sign/verify (`NodeAlgorithm` /
`IRsaPssParams`): an optional name and, for PSS, an optional
`saltLength`. -/
structure AlgParam where
  name : Option String
  saltLength : Option Int
deriving Repr, DecidableEq

/-- The provider-visible key entity (`CryptoKey` of key.ts, which is
outside src/): type, algorithm descriptor, extractable flag, usages.
Modelled from the spec: the constructor merely stores its arguments. -/
structure CryptoKey where
  ktype : String
  alg : AlgDesc
  extractable : Bool
  usages : List String
deriving Repr, DecidableEq

/-- The object literal the base generateKey delivers on success:
`{privateKey, publicKey}`, plus the `usages` property that the (buggy)
variant callback may later attach to this very object. `none` models the
property being absent. -/
structure CryptoKeyPairObj where
  privateKey : CryptoKey
  publicKey : CryptoKey
  usages : Option (List String)
deriving Repr, DecidableEq

/-- The runtime value reaching the variant generateKey callback, whose
declared type is `CryptoKey` but whose runtime value is the pair object
literal built by the base class. -/
inductive GenCbData
  | pairVal (p : CryptoKeyPairObj)
  | keyVal (k : CryptoKey)
deriving Repr, DecidableEq

/-- The JavaScript property read `d.type`: the pair object literal has no
`type` property, so the read yields `undefined` (`none`). -/
def GenCbData.typeProp : GenCbData → Option String
  | .pairVal _ => none
  | .keyVal k => some k.ktype

/-- The JavaScript property write `d.usages = u`. -/
def GenCbData.setUsagesProp : GenCbData → List String → GenCbData
  | .pairVal p, u => .pairVal { p with usages := some u }
  | .keyVal k, u => .keyVal { k with usages := u }

/-- A completion-callback invocation `cb(err, data)`. -/
structure CbCall (α : Type) where
  err : Option String
  data : Option α
deriving Repr, DecidableEq

/-- Equality of modelled `Except` outcomes is decidable, so concrete
runs of the models can be checked by evaluation. -/
instance {e a : Type} [DecidableEq e] [DecidableEq a] : DecidableEq (Except e a) := fun x y =>
  match x, y with
  | .ok u, .ok v =>
    if h : u = v then isTrue (h ▸ rfl) else isFalse (fun hh => h (Except.ok.inj hh))
  | .error u, .error v =>
    if h : u = v then isTrue (h ▸ rfl) else isFalse (fun hh => h (Except.error.inj hh))
  | .ok _, .error _ => isFalse (fun hh => Except.noConfusion hh)
  | .error _, .ok _ => isFalse (fun hh => Except.noConfusion hh)

/-- Modelled from the spec: the shared base class's algorithm-identifier
guard (alg.ts is outside src/) rejects a missing algorithm object or a
name that is not the variant's algorithm name. -/
def checkAlgorithmIdentifier (expected : String) (algName : Option String) : Except String Unit :=
  match algName with
  | none => .error "AlgorithmIdentifier: Missing algorithm"
  | some n =>
    if jsToLower n = jsToLower expected then .ok ()
    else .error "AlgorithmIdentifier: Wrong algorithm name"

/-- `Rsa.checkAlgorithmHashedParams` (rsa.ts lines 193-199): the base
class's presence check (alg.ts, outside src/, modelled from the spec as
requiring the `hash` sub-descriptor), then the name is upper-cased in
place and must belong to `HASH_ALGS`.  Returns the normalized name the
mutated `hash.name` now holds. -/
def checkAlgorithmHashedParams (hashName : Option String) : Except String String :=
  match hashName with
  | none => .error "AlgorithmHashedParams: Missing required property hash"
  | some h =>
    let hn := jsToUpper h
    if HASH_ALGS.contains hn then .ok hn
    else .error "AlgorithmHashedParams: Unknow hash algorithm in use"

/-- Modelled from the spec: the base class's key-role guard (alg.ts is
outside src/) asserts the key's `type` is `public`. -/
def checkPublicKey (ktype : String) : Except String Unit :=
  if ktype = "public" then .ok ()
  else .error "CheckPublicKey: Key is not a public key"

/-- Modelled from the spec: the base class's key-role guard (alg.ts is
outside src/) asserts the key's `type` is `private`. -/
def checkPrivateKey (ktype : String) : Except String Unit :=
  if ktype = "private" then .ok ()
  else .error "CheckPrivateKey: Key is not a private key"

/-- `Rsa.checkExponent` (rsa.ts lines 178-182): the exponent's hex
encoding must be `03` or `010001`, else a TypeError is thrown. -/
def checkExponent (exp : List Nat) : Except String Unit :=
  let e := bytesToHex exp
  if e = "03" ∨ e = "010001" then .ok ()
  else .error "RsaKeyGenParams: Wrong publicExponent value"

/-- `Rsa.checkRsaGenParams` (rsa.ts lines 184-191): `!alg.modulusLength`
(missing or falsy 0) is rejected, then the range [256, 16384], then
`publicExponent` must be present as a Uint8Array.  The source checks no
divisibility by 8, although its own error message mentions it. -/
def checkRsaGenParams (alg : AlgDesc) : Except String Unit :=
  match alg.modulusLength with
  | none => .error "RsaKeyGenParams: modulusLength: Missing required property"
  | some ml =>
    if ml = 0 then .error "RsaKeyGenParams: modulusLength: Missing required property"
    else if ml < 256 ∨ ml > 16384 then
      .error "RsaKeyGenParams: The modulus length must be a multiple of 8 bits and >= 256 and <= 16384"
    else match alg.publicExponent with
      | none => .error "RsaKeyGenParams: publicExponent: Missing or not a Uint8Array"
      | some _ => .ok ()

/-- `Rsa.wc2ssl` (rsa.ts lines 201-205): validate the hashed params, then
upper-case the hash name and remove its (first) dash, e.g.
`SHA-256 ↦ SHA256`.  On the validated hash set the name holds exactly one
dash, so removing the first dash equals JavaScript `replace("-", "")`. -/
def wc2ssl (alg : AlgDesc) : Except String String :=
  match checkAlgorithmHashedParams alg.hashName with
  | .error e => .error e
  | .ok hn => .ok (replaceFirstDash (jsToUpper hn))

/-- `RsaPSS.checkRsaAlgorithmParams` (rsa.ts lines 385-392):
`!alg.saltLength` (missing or the falsy value 0) is reported as the
missing-parameter error; a remainder modulo 8 is rejected. -/
def RsaPSS.checkRsaAlgorithmParams (saltLength : Option Int) : Except String Unit :=
  match saltLength with
  | none => .error "RsaPssAlgorithm: Parameter saltLength is required"
  | some s =>
    if s = 0 then .error "RsaPssAlgorithm: Parameter saltLength is required"
    else if s % 8 ≠ 0 then .error "RsaPssAlgorithm: Parameter saltLength should be a multiple of 8"
    else .ok ()

/-- The synchronous phase of `Rsa.generateKey` (rsa.ts lines 30-39):
`new Buffer(alg.publicExponent)` (a missing exponent makes the Buffer
constructor throw), `checkExponent`, and the reduced exponent selector
`nExp` (1 exactly for the hex `010001` case, else 0).  An `.ok (size,
nExp)` value holds the arguments of the engine call
`native.Key.generateRsa(size, nExp, ...)`; `.error` means the callback is
invoked with the error before the engine is contacted.  A missing
`modulusLength` would reach the engine as `undefined`; the variants
validate it first, so the model reads it with default 0. -/
def Rsa.generateKeyValidate (alg : AlgDesc) : Except String (Int × Nat) :=
  match alg.publicExponent with
  | none => .error "TypeError: publicExponent is not a Buffer source"
  | some expBytes =>
    match checkExponent expBytes with
    | .error e => .error e
    | .ok _ =>
      let nExp : Nat := if bytesToHex expBytes = "010001" then 1 else 0
      .ok (alg.modulusLength.getD 0, nExp)

/-- The pair object literal `Rsa.generateKey` delivers on engine success
(rsa.ts lines 45-48): two `CryptoKey` wrappers over the same native
handle, each carrying the caller-supplied `keyUsages` verbatim. -/
def Rsa.generateKeyPair (alg : AlgDesc) (extractable : Bool) (keyUsages : List String) : GenCbData :=
  .pairVal
    { privateKey := { ktype := "private", alg := alg, extractable := extractable, usages := keyUsages }
      publicKey := { ktype := "public", alg := alg, extractable := extractable, usages := keyUsages }
      usages := none }

/-- The callback the signature variants pass to the base generateKey
(rsa.ts lines 226-244 and 327-345): it reads `key.type` from the value it
received — actually the pair object, whose `type` property is undefined —
and assigns the fixed usages accordingly. -/
def rsaSignGenWrapper (d : GenCbData) : GenCbData :=
  if d.typeProp = some "public" then d.setUsagesProp ["verify"]
  else d.setUsagesProp ["sign"]

/-- The analogous callback of `RsaOAEP.generateKey` (rsa.ts lines
438-456). -/
def rsaOaepGenWrapper (d : GenCbData) : GenCbData :=
  if d.typeProp = some "public" then d.setUsagesProp ["encrypt", "wrapKey"]
  else d.setUsagesProp ["decrypt", "unwrapKey"]

/-- `RsaPKCS1.generateKey` (rsa.ts lines 220-249), on the path where the
engine succeeds: the three synchronous checks, the base synchronous
phase, then the wrapper applied to the delivered pair object.  `.error e`
means `cb(e, null)` before the engine is contacted. -/
def RsaPKCS1.generateKeyModel (alg : AlgDesc) (extractable : Bool) (keyUsages : List String) : Except String GenCbData :=
  match checkAlgorithmIdentifier ALG_NAME_RSA_PKCS1 (some alg.name) with
  | .error e => .error e
  | .ok _ =>
  match checkRsaGenParams alg with
  | .error e => .error e
  | .ok _ =>
  match checkAlgorithmHashedParams alg.hashName with
  | .error e => .error e
  | .ok _ =>
  match Rsa.generateKeyValidate alg with
  | .error e => .error e
  | .ok _ =>
    -- checkAlgorithmHashedParams upper-cased alg.hash.name in place before the super call
    .ok (rsaSignGenWrapper (Rsa.generateKeyPair { alg with hashName := alg.hashName.map jsToUpper } extractable keyUsages))

/-- `RsaPSS.generateKey` (rsa.ts lines 321-350): identical shape to the
PKCS1 variant. -/
def RsaPSS.generateKeyModel (alg : AlgDesc) (extractable : Bool) (keyUsages : List String) : Except String GenCbData :=
  match checkAlgorithmIdentifier ALG_NAME_RSA_PSS (some alg.name) with
  | .error e => .error e
  | .ok _ =>
  match checkRsaGenParams alg with
  | .error e => .error e
  | .ok _ =>
  match checkAlgorithmHashedParams alg.hashName with
  | .error e => .error e
  | .ok _ =>
  match Rsa.generateKeyValidate alg with
  | .error e => .error e
  | .ok _ =>
    -- checkAlgorithmHashedParams upper-cased alg.hash.name in place before the super call
    .ok (rsaSignGenWrapper (Rsa.generateKeyPair { alg with hashName := alg.hashName.map jsToUpper } extractable keyUsages))

/-- `RsaOAEP.generateKey` (rsa.ts lines 432-461). -/
def RsaOAEP.generateKeyModel (alg : AlgDesc) (extractable : Bool) (keyUsages : List String) : Except String GenCbData :=
  match checkAlgorithmIdentifier ALG_NAME_RSA_OAEP (some alg.name) with
  | .error e => .error e
  | .ok _ =>
  match checkRsaGenParams alg with
  | .error e => .error e
  | .ok _ =>
  match checkAlgorithmHashedParams alg.hashName with
  | .error e => .error e
  | .ok _ =>
  match Rsa.generateKeyValidate alg with
  | .error e => .error e
  | .ok _ =>
    -- checkAlgorithmHashedParams upper-cased alg.hash.name in place before the super call
    .ok (rsaOaepGenWrapper (Rsa.generateKeyPair { alg with hashName := alg.hashName.map jsToUpper } extractable keyUsages))

/-- One property of a JavaScript JWK object: absent (`undefined`), a
base64url string (as supplied by the caller / produced for the wire), or
a raw byte buffer (after decoding / as returned by the engine). -/
inductive JwkFieldVal
  | undef
  | str (s : String)
  | bytes (b : List Nat)
deriving Repr, DecidableEq

/-- JavaScript truthiness of a JWK property value: `undefined` and the
empty string are falsy, a Buffer object is truthy. -/
def JwkFieldVal.truthy : JwkFieldVal → Bool
  | .undef => false
  | .str s => s != ""
  | .bytes _ => true

/-- Buffer length of a decoded property (`jwk.n.length`); the non-bytes
arms are unreachable on the modelled paths. -/
def JwkFieldVal.byteLen : JwkFieldVal → Nat
  | .bytes b => b.length
  | .str s => s.length
  | .undef => 0

/-- The byte content of a decoded property; `[]` on the unreachable
non-bytes arms. -/
def JwkFieldVal.asBytes : JwkFieldVal → List Nat
  | .bytes b => b
  | _ => []

/-- The JWK object (`IJwkRsaPrivateKey`): metadata `alg`, `ext`,
`key_ops` plus the numeric properties. -/
structure JwkObj where
  alg : Option String
  ext : Option Bool
  key_ops : Option (List String)
  n : JwkFieldVal
  e : JwkFieldVal
  d : JwkFieldVal
  p : JwkFieldVal
  q : JwkFieldVal
  dp : JwkFieldVal
  dq : JwkFieldVal
  qi : JwkFieldVal
deriving Repr, DecidableEq

/-- `Base64Url.decode(jwk.x)` applied to a property: the codec is an
external collaborator, so the decoder `D` is a parameter; it turns the
caller's base64url string into a byte buffer.  (A non-string input to the
codec is unreachable on the modelled paths.) -/
def decodeField (D : String → List Nat) : JwkFieldVal → JwkFieldVal
  | .str s => .bytes (D s)
  | v => v

/-- `Base64Url.encode(jwk.x)`: the inverse direction, encoder `E` as a
parameter. -/
def encodeField (E : List Nat → String) : JwkFieldVal → JwkFieldVal
  | .bytes b => .str (E b)
  | v => v

/-- The in-place preparation of the caller's JWK object in the `jwk`
branch of `Rsa.importKey` (rsa.ts lines 73-88).  `keyData` is a JavaScript
object reference and the source assigns `jwk.n = Base64Url.decode(jwk.n)`
etc. on that very object, so the value returned here is simultaneously
the payload handed to `native.Key.importJwk` and the state of the
caller's own object after the call.  Returns the mutated object and the
`key_type` selector (`native.KeyType.PRIVATE = 1` when `jwk.d` is truthy,
else `PUBLIC = 0`). -/
def Rsa.importJwkPrepare (D : String → List Nat) (jwk : JwkObj) : JwkObj × Nat :=
  let jwk1 := { jwk with n := decodeField D jwk.n, e := decodeField D jwk.e }
  if jwk1.d.truthy then
    ({ jwk1 with
        d := decodeField D jwk1.d, p := decodeField D jwk1.p, q := decodeField D jwk1.q
        dp := decodeField D jwk1.dp, dq := decodeField D jwk1.dq, qi := decodeField D jwk1.qi }, 1)
  else (jwk1, 0)

/-- The `keyData` argument of importKey: a Buffer, a JWK object, or some
other value (which fails the `Buffer.isBuffer` test). -/
inductive KeyDataVal
  | buf (b : List Nat)
  | jwkObj (j : JwkObj)
  | otherVal
deriving Repr, DecidableEq

/-- What `Rsa.importKey` does before any engine call: either an engine
request (with its payload) or a callback invocation with an error. -/
inductive ImportAction
  | engineJwk (payload : JwkObj) (keyType : Nat)
  | enginePkcs8 (data : List Nat)
  | engineSpki (data : List Nat)
  | fail (msg : String)
deriving Repr, DecidableEq

/-- The synchronous phase of `Rsa.importKey` (rsa.ts lines 61-131), for
the variant whose algorithm name is `expectedName`.  The format is
lower-cased before dispatch.  In the `jwk` branch the algorithm
identifier and hashed params are checked, then the caller's object is
mutated in place by `Rsa.importJwkPrepare`; a non-object `keyData` there
would make the codec throw, delivered as an error.  In the
`pkcs8`/`spki` branch only `Buffer.isBuffer` is checked — the algorithm
argument is not validated.  Unknown formats fail at once. -/
def Rsa.importKeyAction (D : String → List Nat) (expectedName : String) (format : String)
    (keyData : KeyDataVal) (algorithm : Option AlgDesc) : ImportAction :=
  let f := jsToLower format
  if f = "jwk" then
    match keyData with
    | .jwkObj j =>
      match checkAlgorithmIdentifier expectedName (algorithm.map (·.name)) with
      | .error e => .fail e
      | .ok _ =>
        match checkAlgorithmHashedParams (algorithm.bind (·.hashName)) with
        | .error e => .fail e
        | .ok _ =>
          let pk := Rsa.importJwkPrepare D j
          .engineJwk pk.1 pk.2
    | _ => .fail "TypeError: Base64Url.decode input is not a string"
  else if f = "pkcs8" ∨ f = "spki" then
    match keyData with
    | .buf b => if f = "spki" then .engineSpki b else .enginePkcs8 b
    | _ => .fail "ImportKey: keyData is not a Buffer"
  else .fail ("ImportKey: Wrong format value " ++ format)

/-- The engine's reply to a successful binary or JWK import: the native
key's accessors `modulusLength()` (bytes) and `publicExponent()`. -/
structure NativeKeyInfo where
  modulusLengthBytes : Nat
  publicExponentBytes : List Nat
deriving Repr, DecidableEq

/-- Full `Rsa.importKey` (rsa.ts lines 61-131) as a function of the
engine's reply (`engineErr` = the `err` argument of the engine callback,
`engineKey` its key info, read only when `engineErr` is `none`): the
callback invocation the caller observes.  The `jwk` continuation (lines
89-101) wraps an engine error and its catch passes the caught exception
(`cb(e, null)`).  The binary continuation (lines 110-122) catch passes
the OUTER `err` variable instead of the caught exception, so a
post-success exception — e.g. writing `modulusLength` on a null
`algorithm` — is delivered as `cb(null, null)`. -/
def Rsa.importKeyModel (D : String → List Nat) (expectedName : String) (format : String)
    (keyData : KeyDataVal) (algorithm : Option AlgDesc) (extractable : Bool)
    (keyUsages : List String) (engineErr : Option String) (engineKey : NativeKeyInfo) :
    CbCall CryptoKey :=
  match Rsa.importKeyAction D expectedName format keyData algorithm with
  | .fail m => { err := some m, data := none }
  | .engineJwk payload keyType =>
    match engineErr with
    | some e => { err := some ("ImportKey: Can not import key from JWK; " ++ e), data := none }
    | none =>
      match algorithm with
      | none => { err := some "TypeError: Cannot set property of null", data := none }
      | some a =>
        { err := none
          data := some
            { ktype := if keyType ≠ 0 then "private" else "public"
              alg := { a with
                        hashName := a.hashName.map jsToUpper
                        modulusLength := some (payload.n.byteLen * 8)
                        publicExponent := some payload.e.asBytes }
              extractable := extractable, usages := keyUsages } }
  | .enginePkcs8 _ | .engineSpki _ =>
    match engineErr with
    | some e => { err := some e, data := none }
    | none =>
      match algorithm with
      | none => { err := none, data := none }
      | some a =>
        { err := none
          data := some
            { ktype := if jsToLower format = "spki" then "public" else "private"
              alg := { a with
                        modulusLength := some ((engineKey.modulusLengthBytes : Int) * 8)
                        publicExponent := some engineKey.publicExponentBytes }
              extractable := extractable, usages := keyUsages } }

/-- What an exportKey call produces: the enriched/encoded JWK object, a
raw DER buffer delivered by the engine, or a callback with an error.  A
`.binary`/`.jwkData` value means the engine WAS contacted (the DER/JWK
content comes from the engine reply parameters). -/
inductive ExportResult
  | jwkData (j : JwkObj)
  | binary (b : List Nat)
  | failure (msg : String)
deriving Repr, DecidableEq

/-- The `jwk` continuation of `Rsa.exportKey` (rsa.ts lines 139-159):
base64url-encode `e` and `n`, and for a private key also the six private
properties, on the object the engine returned. -/
def Rsa.exportJwkCont (E : List Nat → String) (ktype : String) (data : JwkObj) : JwkObj :=
  let j := { data with e := encodeField E data.e, n := encodeField E data.n }
  if ktype = "private" then
    { j with
        d := encodeField E j.d, p := encodeField E j.p, q := encodeField E j.q
        dp := encodeField E j.dp, dq := encodeField E j.dq, qi := encodeField E j.qi }
  else j

/-- `Rsa.exportKey` (rsa.ts lines 133-176) as a function of the engine's
replies (`engineJwk` for `exportJwk`, `engineDer` for
`exportSpki`/`exportPkcs8`).  The format is lower-cased; `spki` requires
a public and `pkcs8` a private key; no property of the key other than
`type` and the native handle is consulted — in particular `extractable`
is never read. -/
def Rsa.exportKeyModel (E : List Nat → String) (format : String) (key : CryptoKey)
    (engineJwk : JwkObj) (engineDer : List Nat) : ExportResult :=
  let f := jsToLower format
  if f = "jwk" then .jwkData (Rsa.exportJwkCont E key.ktype engineJwk)
  else if f = "spki" then
    match checkPublicKey key.ktype with
    | .error e => .failure e
    | .ok _ => .binary engineDer
  else if f = "pkcs8" then
    match checkPrivateKey key.ktype with
    | .error e => .failure e
    | .ok _ => .binary engineDer
  else .failure ("ExportKey: Unknown export frmat " ++ format)

/-- The `alg` tag computed by `RsaPKCS1.exportKey` (rsa.ts line 261):
`"RS" + /(\d+)$/.exec(hash.name)[1]`; a failed match makes the indexing
throw. -/
def rsJwkAlgTag (hashName : Option String) : Except String String :=
  match hashName with
  | none => .error "TypeError: Cannot read name of undefined"
  | some h =>
    match trailingDigits h with
    | none => .error "TypeError: Cannot read index 1 of null"
    | some ds => .ok ("RS" ++ ds)

/-- The `alg` tag computed by `RsaPSS.exportKey` (rsa.ts line 362). -/
def psJwkAlgTag (hashName : Option String) : Except String String :=
  match hashName with
  | none => .error "TypeError: Cannot read name of undefined"
  | some h =>
    match trailingDigits h with
    | none => .error "TypeError: Cannot read index 1 of null"
    | some ds => .ok ("PS" ++ ds)

/-- The `alg` tag computed by `RsaOAEP.exportKey` (rsa.ts lines 472-476):
`"RSA-OAEP"`, suffixed with `-` and the digit run unless that run is
`"1"`. -/
def oaepJwkAlgTag (hashName : Option String) : Except String String :=
  match hashName with
  | none => .error "TypeError: Cannot read name of undefined"
  | some h =>
    match trailingDigits h with
    | none => .error "TypeError: Cannot read index 1 of null"
    | some ds => .ok (if ds ≠ "1" then "RSA-OAEP" ++ "-" ++ ds else "RSA-OAEP")

/-- `RsaPKCS1.exportKey` (rsa.ts lines 251-282): delegate to the base,
then — only when the RAW format string equals `"jwk"` exactly (line 257
compares without lower-casing) — set `alg`, `ext` and role-dependent
`key_ops` on the returned JWK object. -/
def RsaPKCS1.exportKeyModel (E : List Nat → String) (format : String) (key : CryptoKey)
    (engineJwk : JwkObj) (engineDer : List Nat) : ExportResult :=
  match Rsa.exportKeyModel E format key engineJwk engineDer with
  | .failure m => .failure m
  | r =>
    if format = "jwk" then
      match r with
      | .jwkData j =>
        match rsJwkAlgTag key.alg.hashName with
        | .error m => .failure m
        | .ok tag =>
          .jwkData { j with
                      alg := some tag, ext := some true
                      key_ops := some (if key.ktype = "public" then ["verify"] else ["sign"]) }
      | r1 => r1
    else r

/-- `RsaPSS.exportKey` (rsa.ts lines 352-383): same shape with the `PS`
tag. -/
def RsaPSS.exportKeyModel (E : List Nat → String) (format : String) (key : CryptoKey)
    (engineJwk : JwkObj) (engineDer : List Nat) : ExportResult :=
  match Rsa.exportKeyModel E format key engineJwk engineDer with
  | .failure m => .failure m
  | r =>
    if format = "jwk" then
      match r with
      | .jwkData j =>
        match psJwkAlgTag key.alg.hashName with
        | .error m => .failure m
        | .ok tag =>
          .jwkData { j with
                      alg := some tag, ext := some true
                      key_ops := some (if key.ktype = "public" then ["verify"] else ["sign"]) }
      | r1 => r1
    else r

/-- `RsaOAEP.exportKey` (rsa.ts lines 463-497): the OAEP tag and the
encryption-scheme `key_ops`. -/
def RsaOAEP.exportKeyModel (E : List Nat → String) (format : String) (key : CryptoKey)
    (engineJwk : JwkObj) (engineDer : List Nat) : ExportResult :=
  match Rsa.exportKeyModel E format key engineJwk engineDer with
  | .failure m => .failure m
  | r =>
    if format = "jwk" then
      match r with
      | .jwkData j =>
        match oaepJwkAlgTag key.alg.hashName with
        | .error m => .failure m
        | .ok tag =>
          .jwkData { j with
                      alg := some tag, ext := some true
                      key_ops := some (if key.ktype = "public"
                        then ["encrypt", "wrapKey"] else ["decrypt", "unwrapKey"]) }
      | r1 => r1
    else r

/-- The `alg` tag of an export outcome, for stating properties of the
JWK enrichment. -/
def exportedAlgTag : ExportResult → Option String
  | .jwkData j => j.alg
  | _ => none

/-- The synchronous phase of `RsaPSS.sign` (rsa.ts lines 394-409):
identifier, PSS params, private-key role, `wc2ssl` on the key's
algorithm; on success the engine is called as
`RsaPssSign(_alg, saltLength / 8, data, cb)` — an `.ok (ssl, saltBytes)`
value holds those two engine arguments (`saltLength` is present here:
`checkRsaAlgorithmParams` rejected a missing one). -/
def RsaPSS.signModel (algParam : AlgParam) (key : CryptoKey) : Except String (String × Int) :=
  match checkAlgorithmIdentifier ALG_NAME_RSA_PSS algParam.name with
  | .error e => .error e
  | .ok _ =>
  match RsaPSS.checkRsaAlgorithmParams algParam.saltLength with
  | .error e => .error e
  | .ok _ =>
  match checkPrivateKey key.ktype with
  | .error e => .error e
  | .ok _ =>
  match wc2ssl key.alg with
  | .error e => .error e
  | .ok ssl => .ok (ssl, (algParam.saltLength.getD 0) / 8)

/-- Modelled from the spec: the native engine's verify primitive (native
code, outside src/) reports a cryptographically invalid signature by
completing successfully with `false` — never through the error slot. -/
def nativeVerifyReply (signatureValid : Bool) : CbCall Bool :=
  { err := none, data := some signatureValid }

/-- `RsaPKCS1.verify` (rsa.ts lines 298-310): the synchronous checks,
then the caller's callback is handed VERBATIM to the engine
(`nkey.verify(_alg, data, signature, cb)`), so the engine's reply is
delivered unchanged.  `signatureValid` is whether the signature is
cryptographically valid for the data. -/
def RsaPKCS1.verifyModel (algParam : AlgParam) (key : CryptoKey) (signatureValid : Bool) :
    CbCall Bool :=
  match checkAlgorithmIdentifier ALG_NAME_RSA_PKCS1 algParam.name with
  | .error e => { err := some e, data := none }
  | .ok _ =>
  match checkPublicKey key.ktype with
  | .error e => { err := some e, data := none }
  | .ok _ =>
  match wc2ssl key.alg with
  | .error e => { err := some e, data := none }
  | .ok _ => nativeVerifyReply signatureValid

/-- The synchronous phase of `RsaPSS.verify` (rsa.ts lines 411-426):
identifier, PSS params, public-key role, `wc2ssl` on the key's
algorithm; on success the engine is called as
`RsaPssVerify(_alg, saltLength / 8, data, signature, cb)` — an
`.ok (ssl, saltBytes)` value holds those two engine arguments
(`saltLength` is present here: `checkRsaAlgorithmParams` rejected a
missing one); `.error` means the callback is invoked with the error
before the engine is contacted. -/
def RsaPSS.verifyValidate (algParam : AlgParam) (key : CryptoKey) : Except String (String × Int) :=
  match checkAlgorithmIdentifier ALG_NAME_RSA_PSS algParam.name with
  | .error e => .error e
  | .ok _ =>
  match RsaPSS.checkRsaAlgorithmParams algParam.saltLength with
  | .error e => .error e
  | .ok _ =>
  match checkPublicKey key.ktype with
  | .error e => .error e
  | .ok _ =>
  match wc2ssl key.alg with
  | .error e => .error e
  | .ok ssl => .ok (ssl, (algParam.saltLength.getD 0) / 8)

/-- `RsaPSS.verify` (rsa.ts lines 411-426) as delivered to the caller:
a synchronous failure is delivered through the callback, and otherwise
the caller's callback is handed verbatim to `RsaPssVerify`, so the
engine's reply reaches the caller unchanged. -/
def RsaPSS.verifyModel (algParam : AlgParam) (key : CryptoKey) (signatureValid : Bool) :
    CbCall Bool :=
  match RsaPSS.verifyValidate algParam key with
  | .error e => { err := some e, data := none }
  | .ok _ => nativeVerifyReply signatureValid

/-- Whether an exportKey outcome reaches the native engine (everything
except a synchronous failure does). -/
def ExportResult.contactsEngine : ExportResult → Bool
  | .failure _ => false
  | _ => true

/-- The public key's usage set in a delivered generateKey result. -/
def genPublicUsages : Except String GenCbData → Option (List String)
  | .ok (.pairVal p) => some p.publicKey.usages
  | .ok (.keyVal k) => some k.usages
  | .error _ => none

/-- The private key's usage set in a delivered generateKey result. -/
def genPrivateUsages : Except String GenCbData → Option (List String)
  | .ok (.pairVal p) => some p.privateKey.usages
  | .ok (.keyVal k) => some k.usages
  | .error _ => none

/-- The `usages` property sitting on the delivered PAIR OBJECT itself
(the one the buggy variant callback assigns). -/
def genPairUsagesProp : Except String GenCbData → Option (Option (List String))
  | .ok (.pairVal p) => some p.usages
  | _ => none

/-- Test fixture: well-formed PKCS1 key-generation parameters. -/
def pkcs1GenAlg : AlgDesc :=
  { name := ALG_NAME_RSA_PKCS1, hashName := some "SHA-256"
    modulusLength := some 2048, publicExponent := some [1, 0, 1] }

/-- Test fixture: well-formed PSS key-generation parameters. -/
def pssGenAlg : AlgDesc :=
  { name := ALG_NAME_RSA_PSS, hashName := some "SHA-256"
    modulusLength := some 2048, publicExponent := some [1, 0, 1] }

/-- Test fixture: well-formed OAEP key-generation parameters. -/
def oaepGenAlg : AlgDesc :=
  { name := ALG_NAME_RSA_OAEP, hashName := some "SHA-256"
    modulusLength := some 2048, publicExponent := some [1, 0, 1] }

/-- Test fixture: a provider key of the given algorithm, role and hash. -/
def mkRsaKey (name ktype h : String) : CryptoKey :=
  { ktype := ktype
    alg := { name := name, hashName := some h
             modulusLength := some 2048, publicExponent := some [1, 0, 1] }
    extractable := true, usages := [] }

/-- Test fixture: a key whose extractable flag is false. -/
def nonExtractableKey (ktype : String) : CryptoKey :=
  { ktype := ktype, alg := pkcs1GenAlg, extractable := false, usages := [] }

/-- Test fixture: a concrete stand-in for the external base64url encoder. -/
def stubEncode (b : List Nat) : String := bytesToHex b

/-- Test fixture: a concrete stand-in for the external base64url decoder. -/
def stubDecode (s : String) : List Nat := s.data.map Char.toNat

/-- Test fixture: the JWK object a native `exportJwk` reply delivers (raw
byte buffers, no metadata yet). -/
def engineJwkFix : JwkObj :=
  { alg := none, ext := none, key_ops := none
    n := .bytes [0, 171], e := .bytes [1, 0, 1], d := .bytes [7], p := .bytes [3]
    q := .bytes [5], dp := .bytes [1], dq := .bytes [2], qi := .bytes [4] }

/-- C1: the claim says the generateKey of the signature schemes delivers
a public key with usages `[verify]` and a private key with usages
`[sign]` (and `[encrypt, wrapKey]`/`[decrypt, unwrapKey]` for OAEP)
regardless of the caller's `keyUsages`.  The code does not: the variant
callback receives the PAIR object (whose `type` property is undefined),
so both delivered keys keep the caller-supplied usages verbatim and the
fixed usage list is assigned to the pair object itself. -/
theorem c1_generateKey_keeps_caller_usages :
    genPublicUsages (RsaPKCS1.generateKeyModel pkcs1GenAlg true ["encrypt"]) = some ["encrypt"]
    ∧ genPrivateUsages (RsaPKCS1.generateKeyModel pkcs1GenAlg true ["encrypt"]) = some ["encrypt"]
    ∧ genPairUsagesProp (RsaPKCS1.generateKeyModel pkcs1GenAlg true ["encrypt"]) = some (some ["sign"])
    ∧ genPublicUsages (RsaPSS.generateKeyModel pssGenAlg true ["decrypt"]) = some ["decrypt"]
    ∧ genPrivateUsages (RsaPSS.generateKeyModel pssGenAlg true ["decrypt"]) = some ["decrypt"]
    ∧ genPublicUsages (RsaOAEP.generateKeyModel oaepGenAlg true ["sign"]) = some ["sign"]
    ∧ genPrivateUsages (RsaOAEP.generateKeyModel oaepGenAlg true ["sign"]) = some ["sign"]
    ∧ genPairUsagesProp (RsaOAEP.generateKeyModel oaepGenAlg true ["sign"])
        = some (some ["decrypt", "unwrapKey"]) := by
  decide

/-- C2: the claim says every exportKey on a key whose extractable flag is
false fails before the engine is contacted.  The code never reads
`extractable`: exporting a non-extractable private key as `pkcs8`
delegates to the engine and delivers the engine's DER; `jwk` and `spki`
exports likewise reach the engine. -/
theorem c2_export_ignores_extractable :
    (nonExtractableKey "private").extractable = false
    ∧ Rsa.exportKeyModel stubEncode "pkcs8" (nonExtractableKey "private") engineJwkFix [9, 9]
        = .binary [9, 9]
    ∧ (Rsa.exportKeyModel stubEncode "jwk" (nonExtractableKey "private") engineJwkFix [9, 9]).contactsEngine
        = true
    ∧ Rsa.exportKeyModel stubEncode "spki" (nonExtractableKey "public") engineJwkFix [9, 9]
        = .binary [9, 9]
    ∧ RsaPKCS1.exportKeyModel stubEncode "pkcs8" (nonExtractableKey "private") engineJwkFix [9, 9]
        = .binary [9, 9] := by
  decide

/-- C3: the claim says every failure is delivered through the completion
callback with a NON-NULL error value.  In the `pkcs8`/`spki` import
continuation the catch block passes the outer `err` variable instead of
the caught exception, so when the engine succeeds but the post-processing
throws (here: `algorithm` is null, so writing `modulusLength` on it
throws) the caller's callback is invoked as `cb(null, null)` — a failure
whose error value is null.  The `jwk` branch, by contrast, fails the same
call synchronously with a non-null error. -/
theorem c3_binary_import_swallows_post_engine_failure :
    Rsa.importKeyModel stubDecode ALG_NAME_RSA_PKCS1 "pkcs8" (.buf [48, 130]) none true ["sign"]
        none ⟨256, [1, 0, 1]⟩
      = { err := none, data := none }
    ∧ (Rsa.importKeyModel stubDecode ALG_NAME_RSA_PKCS1 "jwk"
        (.jwkObj { alg := none, ext := none, key_ops := none
                   n := .str "AQAB", e := .str "AQAB", d := .undef, p := .undef, q := .undef
                   dp := .undef, dq := .undef, qi := .undef })
        none true ["sign"] none ⟨256, [1, 0, 1]⟩).err.isSome = true := by
  decide

/-- C4: the claim says generateKey rejects every modulusLength that is
not a multiple of 8.  The source's `checkRsaGenParams` checks only
falsiness and the range [256, 16384] — its own error message mentions the
multiple-of-8 requirement, but no divisibility check exists — so
modulusLength 257 (in range, not a multiple of 8) passes validation and
generateKey proceeds to the engine. -/
theorem c4_modulus_multiple_of_8_not_checked :
    checkRsaGenParams
        { name := ALG_NAME_RSA_PKCS1, hashName := some "SHA-256"
          modulusLength := some 257, publicExponent := some [3] } = .ok ()
    ∧ (257 : Int) % 8 ≠ 0
    ∧ (RsaPKCS1.generateKeyModel
        { name := ALG_NAME_RSA_PKCS1, hashName := some "SHA-256"
          modulusLength := some 257, publicExponent := some [3] } true ["sign"]).isOk = true
    ∧ checkRsaGenParams
        { name := ALG_NAME_RSA_PKCS1, hashName := some "SHA-256"
          modulusLength := some 255, publicExponent := some [3] }
        = .error "RsaKeyGenParams: The modulus length must be a multiple of 8 bits and >= 256 and <= 16384"
    ∧ checkRsaGenParams
        { name := ALG_NAME_RSA_PKCS1, hashName := some "SHA-256"
          modulusLength := some 16385, publicExponent := some [3] }
        = .error "RsaKeyGenParams: The modulus length must be a multiple of 8 bits and >= 256 and <= 16384"
    ∧ checkRsaGenParams
        { name := ALG_NAME_RSA_PKCS1, hashName := some "SHA-256"
          modulusLength := none, publicExponent := some [3] }
        = .error "RsaKeyGenParams: modulusLength: Missing required property" := by
  decide

/-- C5: generateKey accepts a publicExponent if and only if its hex
encoding is `03` or `010001`; the exponent 65539 (bytes `[1, 0, 3]`, hex
`010003`) is rejected with the ParameterError before the engine is
reached, while 3 and 65537 pass on to the engine. -/
theorem c5_exponent_whitelist :
    (∀ exp : List Nat,
      checkExponent exp = .ok () ↔ (bytesToHex exp = "03" ∨ bytesToHex exp = "010001"))
    ∧ RsaPKCS1.generateKeyModel
        { name := ALG_NAME_RSA_PKCS1, hashName := some "SHA-256"
          modulusLength := some 2048, publicExponent := some [1, 0, 3] } true ["sign"]
        = .error "RsaKeyGenParams: Wrong publicExponent value"
    ∧ (RsaPKCS1.generateKeyModel
        { name := ALG_NAME_RSA_PKCS1, hashName := some "SHA-256"
          modulusLength := some 2048, publicExponent := some [1, 0, 1] } true ["sign"]).isOk = true
    ∧ (RsaPKCS1.generateKeyModel
        { name := ALG_NAME_RSA_PKCS1, hashName := some "SHA-256"
          modulusLength := some 2048, publicExponent := some [3] } true ["sign"]).isOk = true := by
  refine ⟨fun exp => ?_, by decide, by decide, by decide⟩
  by_cases hc : bytesToHex exp = "03" ∨ bytesToHex exp = "010001" <;>
    simp [checkExponent, hc]

/-- C6 counterexample: the claim says PSS sign and verify fail only when
saltLength is absent or not a multiple of 8, and that a valid saltLength
is divided by 8 and passed on.  saltLength 0 is present and a multiple
of 8, yet both operations reject it: `!alg.saltLength` treats the falsy
0 as missing. -/
theorem c6_saltLength_zero_rejected :
    RsaPSS.signModel { name := some ALG_NAME_RSA_PSS, saltLength := some 0 }
        (mkRsaKey ALG_NAME_RSA_PSS "private" "SHA-256")
      = .error "RsaPssAlgorithm: Parameter saltLength is required"
    ∧ RsaPSS.verifyValidate { name := some ALG_NAME_RSA_PSS, saltLength := some 0 }
        (mkRsaKey ALG_NAME_RSA_PSS "public" "SHA-256")
      = .error "RsaPssAlgorithm: Parameter saltLength is required"
    ∧ (0 : Int) % 8 = 0 := by
  decide

/-- C6 (amended): a PSS sign or verify call fails with the
ParameterError before any engine call when saltLength is missing, ZERO
(falsy, reported as missing), or not a multiple of 8 (e.g. 15); when
saltLength is nonzero and a multiple of 8, both operations call the
engine with the hash tag and saltLength / 8 (bits to bytes). -/
theorem c6_salt_validation (s : Int) :
    (RsaPSS.signModel { name := some ALG_NAME_RSA_PSS, saltLength := none }
        (mkRsaKey ALG_NAME_RSA_PSS "private" "SHA-256")
      = .error "RsaPssAlgorithm: Parameter saltLength is required"
     ∧ RsaPSS.verifyValidate { name := some ALG_NAME_RSA_PSS, saltLength := none }
        (mkRsaKey ALG_NAME_RSA_PSS "public" "SHA-256")
      = .error "RsaPssAlgorithm: Parameter saltLength is required")
    ∧ (s = 0 →
        RsaPSS.signModel { name := some ALG_NAME_RSA_PSS, saltLength := some s }
            (mkRsaKey ALG_NAME_RSA_PSS "private" "SHA-256")
          = .error "RsaPssAlgorithm: Parameter saltLength is required"
        ∧ RsaPSS.verifyValidate { name := some ALG_NAME_RSA_PSS, saltLength := some s }
            (mkRsaKey ALG_NAME_RSA_PSS "public" "SHA-256")
          = .error "RsaPssAlgorithm: Parameter saltLength is required")
    ∧ (s ≠ 0 → s % 8 ≠ 0 →
        RsaPSS.signModel { name := some ALG_NAME_RSA_PSS, saltLength := some s }
            (mkRsaKey ALG_NAME_RSA_PSS "private" "SHA-256")
          = .error "RsaPssAlgorithm: Parameter saltLength should be a multiple of 8"
        ∧ RsaPSS.verifyValidate { name := some ALG_NAME_RSA_PSS, saltLength := some s }
            (mkRsaKey ALG_NAME_RSA_PSS "public" "SHA-256")
          = .error "RsaPssAlgorithm: Parameter saltLength should be a multiple of 8")
    ∧ (s ≠ 0 → s % 8 = 0 →
        RsaPSS.signModel { name := some ALG_NAME_RSA_PSS, saltLength := some s }
            (mkRsaKey ALG_NAME_RSA_PSS "private" "SHA-256")
          = .ok ("SHA256", s / 8)
        ∧ RsaPSS.verifyValidate { name := some ALG_NAME_RSA_PSS, saltLength := some s }
            (mkRsaKey ALG_NAME_RSA_PSS "public" "SHA-256")
          = .ok ("SHA256", s / 8))
    ∧ (RsaPSS.signModel { name := some ALG_NAME_RSA_PSS, saltLength := some 15 }
        (mkRsaKey ALG_NAME_RSA_PSS "private" "SHA-256")
      = .error "RsaPssAlgorithm: Parameter saltLength should be a multiple of 8"
       ∧ RsaPSS.verifyValidate { name := some ALG_NAME_RSA_PSS, saltLength := some 15 }
        (mkRsaKey ALG_NAME_RSA_PSS "public" "SHA-256")
      = .error "RsaPssAlgorithm: Parameter saltLength should be a multiple of 8"
       ∧ (RsaPSS.verifyModel { name := some ALG_NAME_RSA_PSS, saltLength := some 15 }
        (mkRsaKey ALG_NAME_RSA_PSS "public" "SHA-256") true).err
      = some "RsaPssAlgorithm: Parameter saltLength should be a multiple of 8") := by
  have hid : checkAlgorithmIdentifier ALG_NAME_RSA_PSS (some ALG_NAME_RSA_PSS)
      = Except.ok () := by decide
  have hpriv : checkPrivateKey "private" = Except.ok () := by decide
  have hpub : checkPublicKey "public" = Except.ok () := by decide
  have hwc : wc2ssl
      { name := ALG_NAME_RSA_PSS, hashName := some "SHA-256"
        modulusLength := some 2048, publicExponent := some [1, 0, 1] }
      = Except.ok "SHA256" := by decide
  refine ⟨by decide, ?_, ?_, ?_, by decide⟩
  · rintro rfl
    decide
  · intro h0 h8
    constructor <;>
      simp [RsaPSS.signModel, RsaPSS.verifyValidate, RsaPSS.checkRsaAlgorithmParams, mkRsaKey,
        hid, hpriv, hpub, hwc, h0, h8]
  · intro h0 h8
    constructor <;>
      simp [RsaPSS.signModel, RsaPSS.verifyValidate, RsaPSS.checkRsaAlgorithmParams, mkRsaKey,
        hid, hpriv, hpub, hwc, h0, h8]

/-- C6 witness: the amended statement evaluated at saltLength 16:
16 is nonzero and a multiple of 8, and both sign and verify hand the
engine 16 / 8 = 2. -/
theorem c6_salt_validation_witness :
    (16 : Int) ≠ 0 ∧ (16 : Int) % 8 = 0
    ∧ RsaPSS.signModel { name := some ALG_NAME_RSA_PSS, saltLength := some 16 }
        (mkRsaKey ALG_NAME_RSA_PSS "private" "SHA-256")
      = .ok ("SHA256", 2)
    ∧ RsaPSS.verifyValidate { name := some ALG_NAME_RSA_PSS, saltLength := some 16 }
        (mkRsaKey ALG_NAME_RSA_PSS "public" "SHA-256")
      = .ok ("SHA256", 2) :=
  ⟨by decide, by decide,
   ((c6_salt_validation 16).2.2.2.1 (by decide) (by decide)).1,
   ((c6_salt_validation 16).2.2.2.1 (by decide) (by decide)).2⟩

/-- C7 counterexample: the claim says format strings are case-insensitive
including the variant-level exportKey.  The variant-level enrichment
(rsa.ts line 257) compares the RAW format with `"jwk"`, so exporting with
`"JWK"` returns the base JWK with no `alg` tag while `"jwk"` returns one
tagged `RS256`: the two results differ. -/
theorem c7_variant_export_not_case_insensitive :
    RsaPKCS1.exportKeyModel stubEncode "JWK" (mkRsaKey ALG_NAME_RSA_PKCS1 "public" "SHA-256")
        engineJwkFix [9, 9]
      ≠ RsaPKCS1.exportKeyModel stubEncode "jwk" (mkRsaKey ALG_NAME_RSA_PKCS1 "public" "SHA-256")
        engineJwkFix [9, 9]
    ∧ exportedAlgTag (RsaPKCS1.exportKeyModel stubEncode "JWK"
        (mkRsaKey ALG_NAME_RSA_PKCS1 "public" "SHA-256") engineJwkFix [9, 9]) = none
    ∧ exportedAlgTag (RsaPKCS1.exportKeyModel stubEncode "jwk"
        (mkRsaKey ALG_NAME_RSA_PKCS1 "public" "SHA-256") engineJwkFix [9, 9]) = some "RS256" := by
  decide

/-- C7 (amended): importKey and the base Rsa.exportKey treat the format
string case-insensitively (it is lower-cased before dispatch, so any
letter case of jwk/pkcs8/spki behaves as the lower-case string); but the
variant-level exportKey applies its JWK enrichment (`alg`, `ext`,
`key_ops`) only when the format argument is EXACTLY the lower-case
string `"jwk"` — for any other casing it returns the base result
unenriched. -/
theorem c7_format_case_handling :
    (∀ (D : String → List Nat) (f : String) (kd : KeyDataVal) (algo : Option AlgDesc)
        (ext : Bool) (us : List String) (eErr : Option String) (ek : NativeKeyInfo),
      jsToLower f ∈ ["jwk", "pkcs8", "spki"] →
      Rsa.importKeyModel D ALG_NAME_RSA_PKCS1 f kd algo ext us eErr ek
        = Rsa.importKeyModel D ALG_NAME_RSA_PKCS1 (jsToLower f) kd algo ext us eErr ek)
    ∧ (∀ (E : List Nat → String) (f : String) (k : CryptoKey) (j : JwkObj) (d : List Nat),
        jsToLower f ∈ ["jwk", "pkcs8", "spki"] →
        Rsa.exportKeyModel E f k j d = Rsa.exportKeyModel E (jsToLower f) k j d)
    ∧ (∀ (E : List Nat → String) (f : String) (k : CryptoKey) (j : JwkObj) (d : List Nat),
        jsToLower f = "jwk" → f ≠ "jwk" →
        RsaPKCS1.exportKeyModel E f k j d = Rsa.exportKeyModel E f k j d
        ∧ RsaPSS.exportKeyModel E f k j d = Rsa.exportKeyModel E f k j d
        ∧ RsaOAEP.exportKeyModel E f k j d = Rsa.exportKeyModel E f k j d) := by
  have l1 : jsToLower "jwk" = "jwk" := by decide
  have l2 : jsToLower "pkcs8" = "pkcs8" := by decide
  have l3 : jsToLower "spki" = "spki" := by decide
  refine ⟨?_, ?_, ?_⟩
  · intro D f kd algo ext us eErr ek hm
    simp only [List.mem_cons, List.not_mem_nil, or_false] at hm
    obtain hf | hf | hf := hm <;>
      simp [Rsa.importKeyModel, Rsa.importKeyAction, hf, l1, l2, l3]
  · intro E f k j d hm
    simp only [List.mem_cons, List.not_mem_nil, or_false] at hm
    obtain hf | hf | hf := hm <;>
      simp [Rsa.exportKeyModel, hf, l1, l2, l3]
  · intro E f k j d hf hne
    refine ⟨?_, ?_, ?_⟩ <;>
      simp [RsaPKCS1.exportKeyModel, RsaPSS.exportKeyModel, RsaOAEP.exportKeyModel,
        Rsa.exportKeyModel, hf, hne]

/-- C7 witness: the amended statement at the concrete formats `PKCS8`,
`SPKI` and `JWK`. -/
theorem c7_format_case_handling_witness :
    (jsToLower "PKCS8" ∈ ["jwk", "pkcs8", "spki"])
    ∧ Rsa.importKeyModel stubDecode ALG_NAME_RSA_PKCS1 "PKCS8" (.buf [1]) none true [] none
        ⟨256, [1, 0, 1]⟩
      = Rsa.importKeyModel stubDecode ALG_NAME_RSA_PKCS1 (jsToLower "PKCS8") (.buf [1]) none true
        [] none ⟨256, [1, 0, 1]⟩
    ∧ Rsa.exportKeyModel stubEncode "SPKI" (mkRsaKey ALG_NAME_RSA_PKCS1 "public" "SHA-256")
        engineJwkFix [9]
      = Rsa.exportKeyModel stubEncode (jsToLower "SPKI")
        (mkRsaKey ALG_NAME_RSA_PKCS1 "public" "SHA-256") engineJwkFix [9]
    ∧ RsaPKCS1.exportKeyModel stubEncode "JWK" (mkRsaKey ALG_NAME_RSA_PKCS1 "public" "SHA-256")
        engineJwkFix [9]
      = Rsa.exportKeyModel stubEncode "JWK" (mkRsaKey ALG_NAME_RSA_PKCS1 "public" "SHA-256")
        engineJwkFix [9] :=
  ⟨by decide,
   c7_format_case_handling.1 stubDecode "PKCS8" (.buf [1]) none true [] none ⟨256, [1, 0, 1]⟩
     (by decide),
   (c7_format_case_handling.2.1 stubEncode "SPKI" (mkRsaKey ALG_NAME_RSA_PKCS1 "public" "SHA-256")
     engineJwkFix [9] (by decide)),
   (c7_format_case_handling.2.2 stubEncode "JWK" (mkRsaKey ALG_NAME_RSA_PKCS1 "public" "SHA-256")
     engineJwkFix [9] (by decide) (by decide)).1⟩

/-- Specification-side table (from the claim's words): the expected JWK
`alg` tag for RSASSA-PKCS1-v1_5 is `"RS"` followed by the digits of the
hash name. -/
def specJwkAlgPKCS1 (h : String) : String :=
  if h = "SHA-1" then "RS1"
  else if h = "SHA-224" then "RS224"
  else if h = "SHA-256" then "RS256"
  else if h = "SHA-384" then "RS384"
  else "RS512"

/-- Specification-side table (from the claim's words): the expected JWK
`alg` tag for RSA-PSS is `"PS"` followed by the digits of the hash
name. -/
def specJwkAlgPSS (h : String) : String :=
  if h = "SHA-1" then "PS1"
  else if h = "SHA-224" then "PS224"
  else if h = "SHA-256" then "PS256"
  else if h = "SHA-384" then "PS384"
  else "PS512"

/-- Specification-side table (from the claim's words): the expected JWK
`alg` tag for RSA-OAEP is `"RSA-OAEP"` suffixed with `-` and the digits,
except for the digits `"1"` (SHA-1), where it is the bare `"RSA-OAEP"`. -/
def specJwkAlgOAEP (h : String) : String :=
  if h = "SHA-1" then "RSA-OAEP"
  else if h = "SHA-224" then "RSA-OAEP-224"
  else if h = "SHA-256" then "RSA-OAEP-256"
  else if h = "SHA-384" then "RSA-OAEP-384"
  else "RSA-OAEP-512"

/-- C8: for every hash of the provider's hash set and both key roles, a
successful jwk export carries exactly the claimed `alg` tag: `RS`+digits
for PKCS1v1.5, `PS`+digits for PSS, and `RSA-OAEP`(-digits except for
SHA-1) for OAEP. -/
theorem c8_jwk_alg_tags :
    ∀ h ∈ HASH_ALGS, ∀ t ∈ ["public", "private"],
      exportedAlgTag (RsaPKCS1.exportKeyModel stubEncode "jwk"
          (mkRsaKey ALG_NAME_RSA_PKCS1 t h) engineJwkFix [9]) = some (specJwkAlgPKCS1 h)
      ∧ exportedAlgTag (RsaPSS.exportKeyModel stubEncode "jwk"
          (mkRsaKey ALG_NAME_RSA_PSS t h) engineJwkFix [9]) = some (specJwkAlgPSS h)
      ∧ exportedAlgTag (RsaOAEP.exportKeyModel stubEncode "jwk"
          (mkRsaKey ALG_NAME_RSA_OAEP t h) engineJwkFix [9]) = some (specJwkAlgOAEP h) := by
  decide

/-- C8 witness: the tags at SHA-256 for a public key. -/
theorem c8_jwk_alg_tags_witness :
    ("SHA-256" ∈ HASH_ALGS) ∧ ("public" ∈ ["public", "private"])
    ∧ exportedAlgTag (RsaPKCS1.exportKeyModel stubEncode "jwk"
        (mkRsaKey ALG_NAME_RSA_PKCS1 "public" "SHA-256") engineJwkFix [9])
      = some (specJwkAlgPKCS1 "SHA-256")
    ∧ exportedAlgTag (RsaPSS.exportKeyModel stubEncode "jwk"
        (mkRsaKey ALG_NAME_RSA_PSS "public" "SHA-256") engineJwkFix [9])
      = some (specJwkAlgPSS "SHA-256")
    ∧ exportedAlgTag (RsaOAEP.exportKeyModel stubEncode "jwk"
        (mkRsaKey ALG_NAME_RSA_OAEP "public" "SHA-256") engineJwkFix [9])
      = some (specJwkAlgOAEP "SHA-256") :=
  ⟨by decide, by decide, c8_jwk_alg_tags "SHA-256" (by decide) "public" (by decide)⟩

/-- C9: for every hash of the provider's set and any verification
outcome, verify on a public key with well-formed parameters completes
through the success channel with the engine's boolean — in particular an
invalid signature yields `cb(null, false)`, never an error — while a
key-role failure (private key) and a parameter failure (PSS saltLength
15) are delivered as errors. -/
theorem c9_bad_signature_resolves_false :
    ∀ h ∈ HASH_ALGS, ∀ b : Bool,
      RsaPKCS1.verifyModel { name := some ALG_NAME_RSA_PKCS1, saltLength := none }
          (mkRsaKey ALG_NAME_RSA_PKCS1 "public" h) b
        = { err := none, data := some b }
      ∧ RsaPKCS1.verifyModel { name := some ALG_NAME_RSA_PKCS1, saltLength := none }
          (mkRsaKey ALG_NAME_RSA_PKCS1 "private" h) b
        = { err := some "CheckPublicKey: Key is not a public key", data := none }
      ∧ RsaPSS.verifyModel { name := some ALG_NAME_RSA_PSS, saltLength := some 32 }
          (mkRsaKey ALG_NAME_RSA_PSS "public" h) b
        = { err := none, data := some b }
      ∧ (RsaPSS.verifyModel { name := some ALG_NAME_RSA_PSS, saltLength := some 15 }
          (mkRsaKey ALG_NAME_RSA_PSS "public" h) b).err
        = some "RsaPssAlgorithm: Parameter saltLength should be a multiple of 8" := by
  decide

/-- C9 witness: at SHA-256 an invalid signature (`false`) is delivered as
`cb(null, false)`. -/
theorem c9_bad_signature_resolves_false_witness :
    ("SHA-256" ∈ HASH_ALGS)
    ∧ RsaPKCS1.verifyModel { name := some ALG_NAME_RSA_PKCS1, saltLength := none }
        (mkRsaKey ALG_NAME_RSA_PKCS1 "public" "SHA-256") false
      = { err := none, data := some false }
    ∧ RsaPKCS1.verifyModel { name := some ALG_NAME_RSA_PKCS1, saltLength := none }
        (mkRsaKey ALG_NAME_RSA_PKCS1 "private" "SHA-256") false
      = { err := some "CheckPublicKey: Key is not a public key", data := none }
    ∧ RsaPSS.verifyModel { name := some ALG_NAME_RSA_PSS, saltLength := some 32 }
        (mkRsaKey ALG_NAME_RSA_PSS "public" "SHA-256") false
      = { err := none, data := some false }
    ∧ (RsaPSS.verifyModel { name := some ALG_NAME_RSA_PSS, saltLength := some 15 }
        (mkRsaKey ALG_NAME_RSA_PSS "public" "SHA-256") false).err
      = some "RsaPssAlgorithm: Parameter saltLength should be a multiple of 8" :=
  ⟨by decide, c9_bad_signature_resolves_false "SHA-256" (by decide) false⟩

/-- Test fixture: a caller-supplied private JWK whose eight numeric
properties are base64url strings. -/
def strJwkFull (ns es ds ps qs dps dqs qis : String) : JwkObj :=
  { alg := none, ext := none, key_ops := none
    n := .str ns, e := .str es, d := .str ds, p := .str ps
    q := .str qs, dp := .str dps, dq := .str dqs, qi := .str qis }

/-- C10: the jwk branch of importKey mutates the caller-supplied JWK
object in place before the engine is contacted: `keyData` is passed by
reference and the source assigns the decoded buffers back onto its
properties, so the payload handed to `native.Key.importJwk` — which by
reference semantics IS the caller's object after the call — holds
`Base64Url.decode` byte buffers in `n` and `e` (and, when `d` is present,
in `d`, `p`, `q`, `dp`, `dq`, `qi` too), no longer the caller's original
base64url strings; without `d` the six private properties are left
untouched. -/
theorem c10_import_jwk_mutates_caller_object
    (D : String → List Nat) (ns es ds ps qs dps dqs qis : String) (hd : ds ≠ "") :
    Rsa.importKeyAction D ALG_NAME_RSA_PKCS1 "jwk"
        (.jwkObj (strJwkFull ns es ds ps qs dps dqs qis)) (some pkcs1GenAlg)
      = .engineJwk
          { alg := none, ext := none, key_ops := none
            n := .bytes (D ns), e := .bytes (D es), d := .bytes (D ds), p := .bytes (D ps)
            q := .bytes (D qs), dp := .bytes (D dps), dq := .bytes (D dqs)
            qi := .bytes (D qis) } 1
    ∧ Rsa.importKeyAction D ALG_NAME_RSA_PKCS1 "jwk"
        (.jwkObj { strJwkFull ns es ds ps qs dps dqs qis with d := .undef })
        (some pkcs1GenAlg)
      = .engineJwk
          { alg := none, ext := none, key_ops := none
            n := .bytes (D ns), e := .bytes (D es), d := .undef, p := .str ps
            q := .str qs, dp := .str dps, dq := .str dqs, qi := .str qis } 0
    ∧ JwkFieldVal.bytes (D ns) ≠ JwkFieldVal.str ns := by
  have l1 : jsToLower "jwk" = "jwk" := by decide
  have hid : checkAlgorithmIdentifier ALG_NAME_RSA_PKCS1 (some pkcs1GenAlg.name)
      = Except.ok () := by decide
  have hhp : checkAlgorithmHashedParams pkcs1GenAlg.hashName
      = Except.ok "SHA-256" := by decide
  refine ⟨?_, ?_, by simp⟩
  · simp [Rsa.importKeyAction, l1, hid, hhp, Rsa.importJwkPrepare, strJwkFull, decodeField,
      JwkFieldVal.truthy, bne_iff_ne, hd]
  · simp [Rsa.importKeyAction, l1, hid, hhp, Rsa.importJwkPrepare, strJwkFull, decodeField,
      JwkFieldVal.truthy]

/-- C10 witness: the mutation at a concrete decoder and concrete
base64url strings. -/
theorem c10_import_jwk_mutates_caller_object_witness :
    ("AQAB" : String) ≠ ""
    ∧ Rsa.importKeyAction stubDecode ALG_NAME_RSA_PKCS1 "jwk"
        (.jwkObj (strJwkFull "AA" "AQAB" "AQAB" "Aw" "BQ" "AQ" "Ag" "BA")) (some pkcs1GenAlg)
      = .engineJwk
          { alg := none, ext := none, key_ops := none
            n := .bytes (stubDecode "AA"), e := .bytes (stubDecode "AQAB")
            d := .bytes (stubDecode "AQAB"), p := .bytes (stubDecode "Aw")
            q := .bytes (stubDecode "BQ"), dp := .bytes (stubDecode "AQ")
            dq := .bytes (stubDecode "Ag"), qi := .bytes (stubDecode "BA") } 1
    ∧ JwkFieldVal.bytes (stubDecode "AA") ≠ JwkFieldVal.str "AA" :=
  ⟨by decide,
   (c10_import_jwk_mutates_caller_object stubDecode "AA" "AQAB" "AQAB" "Aw" "BQ" "AQ" "Ag" "BA"
     (by decide)).1,
   (c10_import_jwk_mutates_caller_object stubDecode "AA" "AQAB" "AQAB" "Aw" "BQ" "AQ" "Ag" "BA"
     (by decide)).2.2⟩
